import Mathlib

/-!
Shallow embedding of the period-tracker slot-filling dialog engine.

The embedding covers, faithfully to the Python source:
- `src/period_tracker/utils/text_processor.py`: the deterministic fallback
  branch of `extract_period_info` (the `except` clause, lines 124-145);
- `src/period_tracker/utils/voice_conversation_handler.py`:
  `_check_required_fields`, `_generate_followup_question`, and the
  turn loop of `process_conversation`;
- `src/period_tracker/utils/data_store.py`: `add_log_to_session`,
  `add_log_to_history`, `_check_for_missing_data`, `end_session`;
- `src/period_tracker/config/settings.py`: the `AppConfig.keywords` table.

Modelling conventions:
- Python transcript strings that are scanned character-by-character
  (lower-cased, substring-matched) are modelled as `List Char` (`Text`);
  strings that are only stored and compared stay `String`.
- A Python dict key that may be absent is an `Option` field; `dict.get`
  with a default is `Option.getD`.
- Python truthiness of a fetched string value (`None` and `""` are falsy)
  is `truthy_str`.
- `datetime.now()` readings are an abstract `Nat` timestamp passed in.
- Operations that may `raise ValueError` return `Except StoreError _`;
  a raise-free body is total and always returns `.ok`.
- Floats appearing in the code (the literal `0.5`) are exact, so they are
  modelled as `Rat`.
-/

namespace PeriodTracker

/-- Characters of a Python transcript string. -/
abbrev Text := List Char

/-- Embeds Python `str.lower()` on transcript text. -/
def lower_text (t : Text) : Text := t.map Char.toLower

/-- Helper for substring search: does `n` occur as a contiguous infix of the
second argument? -/
def chars_infix (n : Text) : Text → Bool
  | [] => n.isEmpty
  | c :: cs => n.isPrefixOf (c :: cs) || chars_infix n cs

/-- Embeds the Python membership test `needle in hay` on strings. -/
def contains_sub (needle hay : Text) : Bool := chars_infix needle hay

/-- Embeds Python `str.strip()`: drop whitespace from both ends. -/
def trim_text (t : Text) : Text :=
  ((t.dropWhile Char.isWhitespace).reverse.dropWhile Char.isWhitespace).reverse

/-- Truthiness of an optional string fetched with `dict.get`: `None` and the
empty string are falsy, every other string is truthy. -/
def truthy_str : Option String → Bool
  | some s => !s.isEmpty
  | none => false

/-- The nested dict stored under the `"period"` key of a record. -/
structure PeriodInfo where
  status : Option String
  flow : Option String
  duration : Option String
  deriving Repr, DecidableEq

/-- One entry of the `"symptoms"` array. The `type` and `severity` strings are
scanned by the unusual-symptom check, so they are modelled as `Text`. -/
structure Symptom where
  type : Option Text
  severity : Option Text
  deriving Repr, DecidableEq

/-- One entry of the `"mood"` array. -/
structure MoodEntry where
  state : Option String
  intensity : Option String
  deriving Repr, DecidableEq

/-- The nested dict stored under the `"timing"` key of a record. -/
structure TimingInfo where
  date : Option String
  time_of_day : Option String
  deriving Repr, DecidableEq

/-- A health record: the top-level dict produced by `extract_period_info` and
accumulated by `process_conversation`. Each top-level key that may be absent
from the dict is an `Option` field. -/
structure HealthRecord where
  period : Option PeriodInfo
  symptoms : Option (List Symptom)
  mood : Option (List MoodEntry)
  timing : Option TimingInfo
  confidence : Option Rat
  raw_text : Option Text
  error : Option String
  unusual_symptoms : Option Bool
  deriving Repr, DecidableEq

/-- A period dict with no keys, as in `data.get("period", {})`. -/
def emptyPeriod : PeriodInfo := { status := none, flow := none, duration := none }

/-- A timing dict with no keys, as in `data.get("timing", {})`. -/
def emptyTiming : TimingInfo := { date := none, time_of_day := none }

/-- A record dict with no keys at all. -/
def emptyRecord : HealthRecord :=
  { period := none, symptoms := none, mood := none, timing := none,
    confidence := none, raw_text := none, error := none, unusual_symptoms := none }

/-- The fixed unusual-symptom lexicon, duplicated verbatim in
`_check_required_fields` and `extract_period_info`. -/
def unusual_symptom_keywords : List Text :=
  (["severe", "extreme", "unusual", "abnormal", "heavy bleeding",
    "intense pain", "fainting", "dizziness", "fever", "vomiting"]).map String.toList

/-- Embeds the per-symptom test
`any(us in symptom.get("type", "").lower() for us in unusual_symptoms)`. -/
def symptom_type_unusual (s : Symptom) : Bool :=
  unusual_symptom_keywords.any (fun us => contains_sub us (lower_text (s.type.getD [])))

/-- Embeds `VoiceConversationHandler._check_required_fields` (lines 54-81).
It returns the missing-field list and, because the Python body assigns
`data["unusual_symptoms"] = True` when a symptom type matches the lexicon,
also the (possibly updated) record. -/
def check_required_fields (data : HealthRecord) : List String × HealthRecord :=
  let period_data := data.period.getD emptyPeriod
  let missing_after_period :=
    if truthy_str period_data.status || truthy_str period_data.flow then ([] : List String)
    else ["period"]
  let timing_data := data.timing.getD emptyTiming
  let missing_fields :=
    missing_after_period ++ (if truthy_str timing_data.date then [] else ["date"])
  let data' :=
    match data.symptoms with
    | some syms =>
        if syms.any symptom_type_unusual then { data with unusual_symptoms := some true }
        else data
    | none => data
  (missing_fields, data')

/-- Embeds `PeriodDataStore._check_for_missing_data` (lines 56-73). -/
def check_for_missing_data (log_data : HealthRecord) : Bool :=
  let period_data := log_data.period.getD emptyPeriod
  if !(truthy_str period_data.status || truthy_str period_data.flow) then true
  else
    let timing_data := log_data.timing.getD emptyTiming
    if !(truthy_str timing_data.date) then true
    else false

/-- Follow-up question asking for flow intensity (line 90). -/
def qFlow : String := "Could you tell me about the flow intensity of your period? (light, medium, heavy)"

/-- Follow-up question asking to confirm start or end of period (line 92). -/
def qConfirm : String := "Could you confirm if you started or ended your period?"

/-- Follow-up question asking for the date (line 95). -/
def qDate : String := "Could you tell me the date or when this happened?"

/-- Generic fallback question (line 97). -/
def qGeneric : String := "Is there anything else you\x27d like to add about your symptoms or mood?"

/-- Embeds `VoiceConversationHandler._generate_followup_question`
(lines 83-97). The early returns of the Python body become nested
conditionals; `current_data` is accepted but, as in the source, never read. -/
def generate_followup_question (missing_fields : List String)
    (current_data : HealthRecord) : String :=
  if missing_fields.isEmpty then ""
  else if missing_fields.contains "period" then
    if missing_fields.contains "flow" then qFlow else qConfirm
  else if missing_fields.contains "date" then qDate
  else qGeneric

/-- Semantics of a single key under Python `dict.update`: the new value wins
when the key is present in the new dict, otherwise the old value stays. -/
def upd {α : Type} (n o : Option α) : Option α :=
  match n with
  | some v => some v
  | none => o

/-- Embeds `result.update(new_info)` (line 138) over the top-level record
keys. -/
def dict_update (result new_info : HealthRecord) : HealthRecord :=
  { period := upd new_info.period result.period,
    symptoms := upd new_info.symptoms result.symptoms,
    mood := upd new_info.mood result.mood,
    timing := upd new_info.timing result.timing,
    confidence := upd new_info.confidence result.confidence,
    raw_text := upd new_info.raw_text result.raw_text,
    error := upd new_info.error result.error,
    unusual_symptoms := upd new_info.unusual_symptoms result.unusual_symptoms }

/-- One iteration of the `process_conversation` loop body applied to a newly
extracted record (lines 133-141): check the new record for unusual symptoms,
merge it with `dict.update`, and re-check the merged record, yielding the new
missing-field list and the new accumulated record. -/
def merge_step (result new_info : HealthRecord) : List String × HealthRecord :=
  let new_info' := (check_required_fields new_info).2
  let merged := dict_update result new_info'
  check_required_fields merged

/-- The `while missing_fields and self.current_question < self.max_questions`
loop of `process_conversation` (lines 113-142). `fuel` is the number of
remaining questions (`max_questions - current_question`); `extract` abstracts
`extract_period_info` on the reply of each turn, `replies` the successive
`input()` results, and the returned `Nat` counts extractor invocations. -/
def conv_loop (extract : Text → HealthRecord) (replies : Nat → Text) :
    Nat → Nat → List String → HealthRecord → Nat → HealthRecord × Nat
  | _, 0, _, result, count => (result, count)
  | k, fuel + 1, missing_fields, result, count =>
    if missing_fields.isEmpty then (result, count)
    else
      let step := merge_step result (extract (replies k))
      conv_loop extract replies (k + 1) fuel step.1 step.2 (count + 1)

/-- Embeds `VoiceConversationHandler.process_conversation` (lines 99-148) for
a freshly constructed handler (`current_question = 0`): initial extraction,
the double `_check_required_fields` pass of lines 108-111, then the turn
loop. Returns the final accumulated record and the number of extractor
invocations. -/
def process_conversation (extract : Text → HealthRecord) (replies : Nat → Text)
    (max_questions : Nat) (initial_text : Text) : HealthRecord × Nat :=
  let result₀ := extract initial_text
  let result₁ := (check_required_fields result₀).2
  let checked := check_required_fields result₁
  conv_loop extract replies 0 max_questions checked.1 checked.2 1

/-- Keyword table entry `flow_light` of `AppConfig.keywords`. -/
def keywords_flow_light : List Text :=
  (["light flow", "light period", "light bleeding"]).map String.toList

/-- Keyword table entry `flow_medium` of `AppConfig.keywords`. -/
def keywords_flow_medium : List Text :=
  (["medium flow", "normal flow", "regular flow"]).map String.toList

/-- Keyword table entry `flow_heavy` of `AppConfig.keywords`. -/
def keywords_flow_heavy : List Text :=
  (["heavy flow", "heavy period", "heavy bleeding"]).map String.toList

/-- Keyword table entry `spotting` of `AppConfig.keywords`. -/
def keywords_spotting : List Text :=
  (["spotting", "light spotting", "brown discharge"]).map String.toList

/-- Embeds `any(keyword in text for keyword in ks)` on a lower-cased text. -/
def matches_any (ks : List Text) (lowered : Text) : Bool :=
  ks.any (fun k => contains_sub k lowered)

/-- Embeds the `except` branch of `extract_period_info` (lines 124-145): the
deterministic fallback used when the OpenAI call or the `eval` of its reply
raises. `err_msg` is `str(e)`. The body builds the base record, then matches
the three flow keyword groups in order; no other keyword group is consulted. -/
def extract_period_info_fallback (text : Text) (err_msg : String) : HealthRecord :=
  let base : HealthRecord :=
    { period := some emptyPeriod,
      symptoms := some [],
      mood := some [],
      timing := some emptyTiming,
      confidence := some (1/2 : Rat),
      raw_text := some (trim_text text),
      error := some err_msg,
      unusual_symptoms := some false }
  let lowered := lower_text text
  if matches_any keywords_flow_light lowered then
    { base with period := some { emptyPeriod with flow := some "light" } }
  else if matches_any keywords_flow_medium lowered then
    { base with period := some { emptyPeriod with flow := some "medium" } }
  else if matches_any keywords_flow_heavy lowered then
    { base with period := some { emptyPeriod with flow := some "heavy" } }
  else base

/-- A log entry appended to a session. `add_log_to_session` stores only
`timestamp` and `data`; `add_log_to_history` additionally stores the two
derived flags, so the flags are optional keys. -/
structure LogEntry where
  timestamp : Nat
  data : HealthRecord
  has_missing_data : Option Bool
  unusual_symptoms : Option Bool
  deriving Repr, DecidableEq

/-- A session dict as built by `create_session`: the `end_time` key is absent
until `end_session` sets it. -/
structure Session where
  session_id : String
  start_time : Nat
  end_time : Option Nat
  status : String
  logs : List LogEntry
  deriving Repr, DecidableEq

/-- The `PeriodDataStore` state: the `sessions` dict (an insertion-ordered
association list keyed by session id) and `current_session_id`. -/
structure PeriodDataStore where
  sessions : List (String × Session)
  current_session_id : Option String
  deriving Repr, DecidableEq

/-- Errors raised by the store: `ValueError(f"Session {sid} not found")` and
`ValueError("No active session")`. -/
inductive StoreError where
  | notFound (sid : String)
  | noActiveSession
  deriving Repr, DecidableEq

/-- Embeds Python `self.sessions[sid]` guarded by `sid in self.sessions`:
the value stored under a key of the sessions dict, if any. -/
def dict_lookup (sessions : List (String × Session)) (sid : String) : Option Session :=
  match sessions with
  | [] => none
  | (k, v) :: rest => if k = sid then some v else dict_lookup rest sid

/-- Overwrites the value stored under an existing key of the sessions dict,
as Python in-place mutation of `self.sessions[sid]` does. -/
def set_session (sessions : List (String × Session)) (sid : String) (s : Session) :
    List (String × Session) :=
  sessions.map (fun kv => if kv.1 = sid then (sid, s) else kv)

/-- Embeds `PeriodDataStore.create_session` (lines 11-21) with the fresh id
and the clock reading passed in. -/
def create_session (store : PeriodDataStore) (sid : String) (now : Nat) : PeriodDataStore :=
  { sessions := store.sessions ++
      [(sid, { session_id := sid, start_time := now, end_time := none,
               status := "active", logs := [] })],
    current_session_id := some sid }

/-- Embeds `PeriodDataStore.add_log_to_session` (lines 23-31): raises
not-found for an unknown id, otherwise appends `{timestamp, data}` to the
session's logs. The session's `status` is never consulted. -/
def add_log_to_session (store : PeriodDataStore) (sid : String)
    (log_data : HealthRecord) (now : Nat) : Except StoreError PeriodDataStore :=
  match dict_lookup store.sessions sid with
  | none => .error (.notFound sid)
  | some sess =>
      .ok { store with
        sessions := set_session store.sessions sid
          { sess with logs := sess.logs ++
              [{ timestamp := now, data := log_data,
                 has_missing_data := none, unusual_symptoms := none }] } }

/-- Embeds `PeriodDataStore.add_log_to_history` (lines 40-54): raises when
`current_session_id` is not a key of `sessions` (in particular when it is
`None`), otherwise appends the entry with the two derived flags. -/
def add_log_to_history (store : PeriodDataStore) (log_data : HealthRecord)
    (now : Nat) : Except StoreError PeriodDataStore :=
  match store.current_session_id with
  | none => .error .noActiveSession
  | some sid =>
      match dict_lookup store.sessions sid with
      | none => .error .noActiveSession
      | some sess =>
          .ok { store with
            sessions := set_session store.sessions sid
              { sess with logs := sess.logs ++
                  [{ timestamp := now, data := log_data,
                     has_missing_data := some (check_for_missing_data log_data),
                     unusual_symptoms := some (log_data.unusual_symptoms.getD false) }] } }

/-- Embeds `PeriodDataStore.end_session` (lines 100-108). The Python body
contains no `raise`, so every branch returns `.ok`: an unknown id is a silent
no-op; a known id gets `end_time` and `status` overwritten and
`current_session_id` set to `None` unconditionally (the trailing
`if self.current_session_id == session_id` check runs after that assignment
and can never fire again). -/
def end_session (store : PeriodDataStore) (sid : String) (now : Nat) :
    Except StoreError PeriodDataStore :=
  match dict_lookup store.sessions sid with
  | none => .ok store
  | some sess =>
      .ok { store with
        sessions := set_session store.sessions sid
          { sess with end_time := some now, status := "completed" },
        current_session_id := none }

/-! Concrete fixtures used by counterexamples and witnesses. -/

/-- A record carrying a symptom whose type contains the lexicon word
"severe", with the unusual-symptoms key present and false — the shape of a
successful extraction before the handler's check runs. -/
def severeSymptomRecord : HealthRecord :=
  { emptyRecord with
    symptoms := some [{ type := some "severe cramps".toList,
                        severity := some "severe".toList }],
    unusual_symptoms := some false }

/-- An accumulated record whose unusual-symptoms flag the handler's own check
has set to true. -/
def accumulatedUnusual : HealthRecord := (check_required_fields severeSymptomRecord).2

/-- A symptom entry contributed by an earlier turn. -/
def symA : Symptom := { type := some "cramps".toList, severity := some "mild".toList }

/-- A different symptom entry contributed by a later turn. -/
def symB : Symptom := { type := some "headache".toList, severity := some "mild".toList }

/-- Accumulated record holding the earlier turn's symptom entry. -/
def recWithSymA : HealthRecord := { emptyRecord with symptoms := some [symA] }

/-- Newly extracted record holding only the later turn's symptom entry. -/
def recWithSymB : HealthRecord := { emptyRecord with symptoms := some [symB] }

/-- A session already in the completed state. -/
def sessionCompleted : Session :=
  { session_id := "a", start_time := 0, end_time := some 1,
    status := "completed", logs := [] }

/-- An active session. -/
def sessionActive : Session :=
  { session_id := "b", start_time := 3, end_time := none,
    status := "active", logs := [] }

/-- A store holding one completed session. -/
def storeCompleted : PeriodDataStore :=
  { sessions := [("a", sessionCompleted)], current_session_id := none }

/-- A store with no sessions. -/
def emptyStore : PeriodDataStore :=
  { sessions := [], current_session_id := none }

/-- A store holding the completed session "a" and the active session "b",
whose current session is "b". -/
def storeTwo : PeriodDataStore :=
  { sessions := [("a", sessionCompleted), ("b", sessionActive)],
    current_session_id := some "b" }

/-- The store `storeTwo` after `end_session` on the non-current session "a"
at time 7. -/
def storeTwoEnded : PeriodDataStore :=
  { storeTwo with
    sessions := set_session storeTwo.sessions "a"
      { sessionCompleted with end_time := some 7, status := "completed" },
    current_session_id := none }

/-- Well-formedness of the schema-valued string fields of a record: a period
status, period flow, or timing date that is present is a non-empty string
(schema values such as "start" or "light" or a date token), so Python
truthiness of those fields coincides with key presence. -/
def schema_well_formed (data : HealthRecord) : Bool :=
  (match (data.period.getD emptyPeriod).status with
   | some s => !s.isEmpty
   | none => true) &&
  (match (data.period.getD emptyPeriod).flow with
   | some s => !s.isEmpty
   | none => true) &&
  (match (data.timing.getD emptyTiming).date with
   | some s => !s.isEmpty
   | none => true)

/-! Helper lemmas. -/

/-- Unfolding lemma: `set_session` on a cons cell. -/
theorem set_session_cons (k : String) (v : Session) (rest : List (String × Session))
    (sid : String) (t : Session) :
    set_session ((k, v) :: rest) sid t =
      (if k = sid then (sid, t) else (k, v)) :: set_session rest sid t := rfl

/-- Looking up the updated key after `set_session` yields the new session,
provided the key was present. -/
theorem lookup_set_session_self (l : List (String × Session)) (sid : String)
    (s t : Session) (h : dict_lookup l sid = some s) :
    dict_lookup (set_session l sid t) sid = some t := by
  induction l with
  | nil => simp [dict_lookup] at h
  | cons kv rest ih =>
      rcases kv with ⟨k, v⟩
      rw [set_session_cons]
      by_cases hk : k = sid
      · rw [if_pos hk]
        simp [dict_lookup]
      · rw [if_neg hk]
        simp only [dict_lookup, if_neg hk] at h ⊢
        exact ih h

/-- Looking up any other key is unaffected by `set_session`. -/
theorem lookup_set_session_ne (l : List (String × Session)) (sid : String)
    (t : Session) (other : String) (h : other ≠ sid) :
    dict_lookup (set_session l sid t) other = dict_lookup l other := by
  induction l with
  | nil => simp [set_session, dict_lookup]
  | cons kv rest ih =>
      rcases kv with ⟨k, v⟩
      rw [set_session_cons]
      by_cases hk : k = sid
      · rw [if_pos hk]
        subst hk
        simp only [dict_lookup, if_neg (Ne.symm h)]
        exact ih
      · rw [if_neg hk]
        by_cases ho : k = other
        · subst ho
          simp [dict_lookup]
        · simp only [dict_lookup, if_neg ho]
          exact ih

/-- Overwriting the same key twice is the same as overwriting it once with
the last value. -/
theorem set_session_set_session (l : List (String × Session)) (sid : String)
    (s t : Session) :
    set_session (set_session l sid s) sid t = set_session l sid t := by
  induction l with
  | nil => simp [set_session]
  | cons kv rest ih =>
      rcases kv with ⟨k, v⟩
      by_cases hk : k = sid
      · subst hk
        simpa [set_session] using ih
      · simpa [set_session, hk] using ih

/-- The handler's required-fields check leaves every record field other than
the unusual-symptoms flag unchanged. -/
theorem check_required_fields_frame (data : HealthRecord) :
    (check_required_fields data).2.period = data.period ∧
    (check_required_fields data).2.symptoms = data.symptoms ∧
    (check_required_fields data).2.mood = data.mood ∧
    (check_required_fields data).2.timing = data.timing ∧
    (check_required_fields data).2.confidence = data.confidence ∧
    (check_required_fields data).2.raw_text = data.raw_text ∧
    (check_required_fields data).2.error = data.error := by
  unfold check_required_fields
  rcases hs : data.symptoms with _ | syms <;> simp [hs]
  split <;> simp_all

/-- The unusual-symptoms flag after the handler's required-fields check: set
to true when the symptoms key is present and some symptom type matches the
lexicon, untouched otherwise. -/
theorem check_required_fields_flag (data : HealthRecord) :
    (check_required_fields data).2.unusual_symptoms =
      (if (data.symptoms.getD []).any symptom_type_unusual then some true
       else data.unusual_symptoms) := by
  unfold check_required_fields
  rcases hs : data.symptoms with _ | syms <;> simp [hs] <;> split <;> simp_all

/-! Claim C1. -/

/-- Claim C1 counterexample: the unusual-symptoms flag is not monotonic
across merges. `accumulatedUnusual` is an accumulated record whose flag the
handler's own check has set to true; merging the extractor's output for a
harmless later turn (a fallback record, which always carries
`unusual_symptoms = false`) overwrites the flag back to false. -/
theorem unusual_flag_lost_after_merge :
    accumulatedUnusual.unusual_symptoms = some true ∧
    (merge_step accumulatedUnusual
        (extract_period_info_fallback "i feel fine".toList "api down")).2.unusual_symptoms =
      some false :=
  ⟨rfl, rfl⟩

/-- Claim C1 (amended): the merge of `process_conversation` does not preserve
a previously true unusual-symptoms flag. When the newly extracted record
carries a symptoms list `l` and a flag value `b` (every extractor output
carries both keys), the accumulated flag after the merge is exactly
`b || (some type in l matches the unusual lexicon)` — the prior accumulated
value is discarded, so a true flag reverts to false whenever the new turn
contributes neither. -/
theorem merge_step_unusual_flag (r n : HealthRecord) (l : List Symptom) (b : Bool)
    (hs : n.symptoms = some l) (hu : n.unusual_symptoms = some b) :
    (merge_step r n).2.unusual_symptoms = some (b || l.any symptom_type_unusual) := by
  have hns : (check_required_fields n).2.symptoms = some l :=
    ((check_required_fields_frame n).2.1).trans hs
  have hnu : (check_required_fields n).2.unusual_symptoms =
      (if l.any symptom_type_unusual then some true else some b) := by
    rw [check_required_fields_flag n, hs, hu]
    simp
  have hms : (dict_update r (check_required_fields n).2).symptoms = some l := by
    simp [dict_update, upd, hns]
  have hmu : (dict_update r (check_required_fields n).2).unusual_symptoms =
      (if l.any symptom_type_unusual then some true else some b) := by
    by_cases hc : l.any symptom_type_unusual <;> simp [dict_update, upd, hnu, hc]
  show (check_required_fields (dict_update r (check_required_fields n).2)).2.unusual_symptoms = _
  rw [check_required_fields_flag, hms]
  by_cases hc : l.any symptom_type_unusual <;> simp [hc, hmu]

/-- Claim C1 witness: the amended flag equation applied to the concrete
counterexample merge. -/
theorem merge_step_unusual_flag_witness :
    (merge_step accumulatedUnusual
        (extract_period_info_fallback "i feel fine".toList "api down")).2.unusual_symptoms =
      some (false || List.any [] symptom_type_unusual) :=
  merge_step_unusual_flag accumulatedUnusual
    (extract_period_info_fallback "i feel fine".toList "api down") [] false rfl rfl

/-! Claim C2. -/

/-- Claim C2 counterexample: the symptoms array is replaced, not unioned,
across turns. Merging a later turn whose record holds only `symB` into an
accumulated record holding `symA` yields exactly `[symB]`: the entry
contributed by the earlier turn is not retained. -/
theorem merge_replaces_symptom_list :
    (merge_step recWithSymA recWithSymB).2.symptoms = some [symB] ∧ symA ∉ [symB] := by
  refine ⟨rfl, ?_⟩
  decide

/-- Claim C2 (amended): the merge of a later turn's extracted record into the
accumulated record is a Python `dict.update` on the top-level keys: a field
present in the new record overwrites the prior value — including the
`symptoms` and `mood` arrays, which are replaced wholesale rather than
unioned — and a field absent from the new record leaves the prior value
unchanged. (The `unusual_symptoms` key is covered by the C1 theorem.) -/
theorem merge_step_field_level (r n : HealthRecord) :
    (merge_step r n).2.period = upd n.period r.period ∧
    (merge_step r n).2.symptoms = upd n.symptoms r.symptoms ∧
    (merge_step r n).2.mood = upd n.mood r.mood ∧
    (merge_step r n).2.timing = upd n.timing r.timing ∧
    (merge_step r n).2.confidence = upd n.confidence r.confidence ∧
    (merge_step r n).2.raw_text = upd n.raw_text r.raw_text ∧
    (merge_step r n).2.error = upd n.error r.error := by
  obtain ⟨p1, s1, m1, t1, c1, w1, e1⟩ := check_required_fields_frame n
  obtain ⟨p2, s2, m2, t2, c2, w2, e2⟩ :=
    check_required_fields_frame (dict_update r (check_required_fields n).2)
  refine ⟨?_, ?_, ?_, ?_, ?_, ?_, ?_⟩
  · show (check_required_fields (dict_update r (check_required_fields n).2)).2.period = _
    rw [p2]
    show upd (check_required_fields n).2.period r.period = _
    rw [p1]
  · show (check_required_fields (dict_update r (check_required_fields n).2)).2.symptoms = _
    rw [s2]
    show upd (check_required_fields n).2.symptoms r.symptoms = _
    rw [s1]
  · show (check_required_fields (dict_update r (check_required_fields n).2)).2.mood = _
    rw [m2]
    show upd (check_required_fields n).2.mood r.mood = _
    rw [m1]
  · show (check_required_fields (dict_update r (check_required_fields n).2)).2.timing = _
    rw [t2]
    show upd (check_required_fields n).2.timing r.timing = _
    rw [t1]
  · show (check_required_fields (dict_update r (check_required_fields n).2)).2.confidence = _
    rw [c2]
    show upd (check_required_fields n).2.confidence r.confidence = _
    rw [c1]
  · show (check_required_fields (dict_update r (check_required_fields n).2)).2.raw_text = _
    rw [w2]
    show upd (check_required_fields n).2.raw_text r.raw_text = _
    rw [w1]
  · show (check_required_fields (dict_update r (check_required_fields n).2)).2.error = _
    rw [e2]
    show upd (check_required_fields n).2.error r.error = _
    rw [e1]

/-! Claim C5. -/

/-- Claim C5 counterexample: with missing-slot set `["period"]` and a record
whose period flow field is absent, the generator returns the
confirm-start/end question, not the flow-intensity question — the code tests
`"flow" in missing_fields` (a value the completeness checker never emits) and
never inspects the record. -/
theorem followup_flow_absent_not_flow_question :
    (emptyRecord.period.getD emptyPeriod).flow = none ∧
    generate_followup_question ["period"] emptyRecord = qConfirm ∧
    qConfirm ≠ qFlow := by
  refine ⟨rfl, rfl, ?_⟩
  decide

/-- Claim C5 (amended): the follow-up generator is a first-match priority
over the missing-field LIST only — the record argument is never consulted.
The flow-intensity question is returned exactly when the literal entry
`"flow"` occurs in the list alongside `"period"`; when `"period"` is missing
without `"flow"` the confirm-start/end question is returned regardless of
whether the record's flow field is present; the empty list yields the empty
string; otherwise `"date"` yields the date question and any other non-empty
list the generic prompt. -/
theorem generate_followup_question_spec (missing_fields : List String)
    (r r' : HealthRecord) :
    generate_followup_question missing_fields r = generate_followup_question missing_fields r' ∧
    (missing_fields = [] → generate_followup_question missing_fields r = "") ∧
    (missing_fields.contains "period" = true → missing_fields.contains "flow" = true →
      generate_followup_question missing_fields r = qFlow) ∧
    (missing_fields.contains "period" = true → missing_fields.contains "flow" = false →
      generate_followup_question missing_fields r = qConfirm) ∧
    (missing_fields ≠ [] → missing_fields.contains "period" = false →
      missing_fields.contains "date" = true →
      generate_followup_question missing_fields r = qDate) ∧
    (missing_fields ≠ [] → missing_fields.contains "period" = false →
      missing_fields.contains "date" = false →
      generate_followup_question missing_fields r = qGeneric) := by
  have hne : missing_fields.contains "period" = true → missing_fields.isEmpty = false := by
    cases missing_fields with
    | nil => intro hp; simp at hp
    | cons a t => intro _; rfl
  have hne' : missing_fields ≠ [] → missing_fields.isEmpty = false := by
    cases missing_fields with
    | nil => intro hp; exact absurd rfl hp
    | cons a t => intro _; rfl
  refine ⟨rfl, ?_, ?_, ?_, ?_, ?_⟩
  · intro h
    subst h
    rfl
  · intro hp hf
    unfold generate_followup_question
    rw [hne hp, hp, hf]
    simp
  · intro hp hf
    unfold generate_followup_question
    rw [hne hp, hp, hf]
    simp
  · intro h hp hd
    unfold generate_followup_question
    rw [hne' h, hp, hd]
    simp
  · intro h hp hd
    unfold generate_followup_question
    rw [hne' h, hp, hd]
    simp

/-- Claim C5 witness: the amended priority applied at the concrete
missing-slot set of the counterexample. -/
theorem generate_followup_question_spec_witness :
    generate_followup_question ["period"] emptyRecord = qConfirm ∧
    generate_followup_question [] emptyRecord = "" :=
  ⟨(generate_followup_question_spec ["period"] emptyRecord emptyRecord).2.2.2.1 rfl rfl,
   (generate_followup_question_spec [] emptyRecord emptyRecord).2.1 rfl⟩

/-! Claim C6. -/

/-- Claim C6 counterexample: the completeness check is not pure. On a record
carrying a symptom whose type contains "severe", `_check_required_fields`
mutates its argument, setting the unusual-symptoms flag to true. -/
theorem check_required_fields_mutates_record :
    severeSymptomRecord.unusual_symptoms = some false ∧
    (check_required_fields severeSymptomRecord).2.unusual_symptoms = some true ∧
    (check_required_fields severeSymptomRecord).2 ≠ severeSymptomRecord := by
  refine ⟨rfl, rfl, ?_⟩
  decide

/-- Claim C6 (amended): for every well-formed record the check returns
`"period"` among the missing slots iff neither period status nor period flow
is present, returns `"date"` iff the timing date is absent, and nothing
else; it is total (a Lean function); but it is NOT pure: it leaves every
field except `unusual_symptoms` unchanged and sets `unusual_symptoms` to
true exactly when the symptoms key is present and some symptom's type
contains an unusual-symptom keyword. -/
theorem check_required_fields_spec (data : HealthRecord)
    (hwf : schema_well_formed data = true) :
    ("period" ∈ (check_required_fields data).1 ↔
      ((data.period.getD emptyPeriod).status = none ∧
       (data.period.getD emptyPeriod).flow = none)) ∧
    ("date" ∈ (check_required_fields data).1 ↔
      (data.timing.getD emptyTiming).date = none) ∧
    (∀ s ∈ (check_required_fields data).1, s = "period" ∨ s = "date") ∧
    (check_required_fields data).2.period = data.period ∧
    (check_required_fields data).2.symptoms = data.symptoms ∧
    (check_required_fields data).2.mood = data.mood ∧
    (check_required_fields data).2.timing = data.timing ∧
    (check_required_fields data).2.confidence = data.confidence ∧
    (check_required_fields data).2.raw_text = data.raw_text ∧
    (check_required_fields data).2.error = data.error ∧
    (check_required_fields data).2.unusual_symptoms =
      (if (data.symptoms.getD []).any symptom_type_unusual then some true
       else data.unusual_symptoms) := by
  simp only [schema_well_formed, Bool.and_eq_true] at hwf
  obtain ⟨⟨h1, h2⟩, h3⟩ := hwf
  have hst : truthy_str (data.period.getD emptyPeriod).status =
      (data.period.getD emptyPeriod).status.isSome := by
    rcases hx : (data.period.getD emptyPeriod).status with _ | s
    · rfl
    · rw [hx] at h1
      simpa [truthy_str] using h1
  have hfl : truthy_str (data.period.getD emptyPeriod).flow =
      (data.period.getD emptyPeriod).flow.isSome := by
    rcases hx : (data.period.getD emptyPeriod).flow with _ | s
    · rfl
    · rw [hx] at h2
      simpa [truthy_str] using h2
  have hdt : truthy_str (data.timing.getD emptyTiming).date =
      (data.timing.getD emptyTiming).date.isSome := by
    rcases hx : (data.timing.getD emptyTiming).date with _ | s
    · rfl
    · rw [hx] at h3
      simpa [truthy_str] using h3
  have hlist : (check_required_fields data).1 =
      (if (data.period.getD emptyPeriod).status.isSome ||
          (data.period.getD emptyPeriod).flow.isSome then [] else ["period"]) ++
      (if (data.timing.getD emptyTiming).date.isSome then [] else ["date"]) := by
    show (if truthy_str (data.period.getD emptyPeriod).status ||
            truthy_str (data.period.getD emptyPeriod).flow
          then ([] : List String) else ["period"]) ++
        (if truthy_str (data.timing.getD emptyTiming).date then [] else ["date"]) = _
    rw [hst, hfl, hdt]
  obtain ⟨p1, s1, m1, t1, c1, w1, e1⟩ := check_required_fields_frame data
  refine ⟨?_, ?_, ?_, p1, s1, m1, t1, c1, w1, e1, check_required_fields_flag data⟩
  · rw [hlist]
    rcases (data.period.getD emptyPeriod).status with _ | s <;>
      rcases (data.period.getD emptyPeriod).flow with _ | f <;>
        rcases (data.timing.getD emptyTiming).date with _ | d <;>
          simp
  · rw [hlist]
    rcases (data.period.getD emptyPeriod).status with _ | s <;>
      rcases (data.period.getD emptyPeriod).flow with _ | f <;>
        rcases (data.timing.getD emptyTiming).date with _ | d <;>
          simp
  · rw [hlist]
    intro s hs
    rw [List.mem_append] at hs
    rcases hs with h | h
    · cases hA : ((data.period.getD emptyPeriod).status.isSome ||
          (data.period.getD emptyPeriod).flow.isSome) <;> rw [hA] at h <;> simp at h
      exact Or.inl h
    · cases hA : (data.timing.getD emptyTiming).date.isSome <;> rw [hA] at h <;> simp at h
      exact Or.inr h

/-- Claim C6 witness: the amended characterisation applied to the record
with every field absent. -/
theorem check_required_fields_spec_witness :
    "period" ∈ (check_required_fields emptyRecord).1 ↔
      ((emptyRecord.period.getD emptyPeriod).status = none ∧
       (emptyRecord.period.getD emptyPeriod).flow = none) :=
  (check_required_fields_spec emptyRecord (by decide)).1

/-! Claim C3. -/

/-- Claim C3 counterexample: appending a log entry to a completed session
does not fail with an invalid-state error and does not leave the session
unchanged — `add_log_to_session` never consults `status`, so it happily
appends to the completed session and mutates its log sequence. -/
theorem add_log_completed_session_succeeds :
    sessionCompleted.status = "completed" ∧
    add_log_to_session storeCompleted "a" emptyRecord 2 =
      .ok { storeCompleted with
        sessions := [("a", { sessionCompleted with
          logs := [{ timestamp := 2, data := emptyRecord,
                     has_missing_data := none, unusual_symptoms := none }] })] } ∧
    dict_lookup storeCompleted.sessions "a" ≠
      some { sessionCompleted with
        logs := [{ timestamp := 2, data := emptyRecord,
                   has_missing_data := none, unusual_symptoms := none }] } := by
  refine ⟨rfl, rfl, ?_⟩
  decide

/-- Claim C3 (amended): `add_log_to_session` fails with not-found exactly
when the session id is unknown; on every present session — whether active or
completed, the status is never checked — it succeeds and appends the entry
to the session's log sequence. -/
theorem add_log_to_session_spec (store : PeriodDataStore) (sid : String)
    (log_data : HealthRecord) (now : Nat) :
    (dict_lookup store.sessions sid = none →
      add_log_to_session store sid log_data now = .error (.notFound sid)) ∧
    (∀ sess, dict_lookup store.sessions sid = some sess →
      add_log_to_session store sid log_data now =
        .ok { store with
          sessions := set_session store.sessions sid
            { sess with logs := sess.logs ++
                [{ timestamp := now, data := log_data,
                   has_missing_data := none, unusual_symptoms := none }] } }) := by
  constructor
  · intro h
    unfold add_log_to_session
    rw [h]
  · intro sess h
    unfold add_log_to_session
    rw [h]

/-- Claim C3 witness: the amended contract applied to the store holding a
single completed session. -/
theorem add_log_to_session_spec_witness :
    add_log_to_session storeCompleted "a" emptyRecord 2 =
      .ok { storeCompleted with
        sessions := set_session storeCompleted.sessions "a"
          { sessionCompleted with logs := sessionCompleted.logs ++
              [{ timestamp := 2, data := emptyRecord,
                 has_missing_data := none, unusual_symptoms := none }] } } :=
  (add_log_to_session_spec storeCompleted "a" emptyRecord 2).2 sessionCompleted rfl

/-! Claim C7. -/

/-- Claim C7 counterexample: `end_session` on a session id that is not in
the store does not fail with a not-found error — the Python body has no
`raise` path, so the call is a silent no-op returning the store unchanged. -/
theorem end_session_unknown_id_no_error :
    end_session emptyStore "missing" 5 = .ok emptyStore ∧
    (Except.ok emptyStore : Except StoreError PeriodDataStore) ≠
      .error (.notFound "missing") := by
  refine ⟨rfl, ?_⟩
  intro h
  exact Except.noConfusion h

/-- Claim C7 (amended): `end_session` never fails. For a session id not
present in the store it is a silent no-op returning the store unchanged
(there is no not-found error); for any present session — active or already
completed — it sets `end_time` to the supplied clock reading, marks the
status completed, and clears `current_session_id`; and at a fixed clock
reading a second call is absorbed, yielding the same terminal state as the
first with no error. -/
theorem end_session_spec (store : PeriodDataStore) (sid : String) (now : Nat) :
    (dict_lookup store.sessions sid = none → end_session store sid now = .ok store) ∧
    (∀ sess, dict_lookup store.sessions sid = some sess →
      end_session store sid now =
        .ok { store with
          sessions := set_session store.sessions sid
            { sess with end_time := some now, status := "completed" },
          current_session_id := none }) ∧
    ((end_session store sid now).bind (fun st => end_session st sid now) =
      end_session store sid now) := by
  refine ⟨?_, ?_, ?_⟩
  · intro h
    unfold end_session
    rw [h]
  · intro sess h
    unfold end_session
    rw [h]
  · rcases h : dict_lookup store.sessions sid with _ | sess
    · unfold end_session
      rw [h]
      show (Except.ok store).bind _ = _
      rw [Except.bind]
      show end_session store sid now = _
      unfold end_session
      rw [h]
    · unfold end_session
      rw [h]
      show (Except.ok _).bind _ = _
      rw [Except.bind]
      show end_session _ sid now = _
      unfold end_session
      have hlk := lookup_set_session_self store.sessions sid sess
        { sess with end_time := some now, status := "completed" } h
      rw [hlk]
      simp [set_session_set_session]

/-- Claim C7 witness: the amended contract applied to a present (already
completed) session. -/
theorem end_session_spec_witness :
    end_session storeCompleted "a" 9 =
      .ok { storeCompleted with
        sessions := set_session storeCompleted.sessions "a"
          { sessionCompleted with end_time := some 9, status := "completed" },
        current_session_id := none } :=
  (end_session_spec storeCompleted "a" 9).2.1 sessionCompleted rfl

/-! Claim C10. -/

/-- Claim C10: `end_session` on any session id present in the store — even
one that is not the current session — sets the store's
`current_session_id` to `none` and leaves every other session's entry
unchanged. The `self.current_session_id = None` assignment at line 105 runs
unconditionally inside the presence check, before the dead comparison at
lines 107-108. -/
theorem end_session_clears_current_session (store : PeriodDataStore) (sid : String)
    (now : Nat) (sess : Session) (h : dict_lookup store.sessions sid = some sess) :
    ∃ store', end_session store sid now = .ok store' ∧
      store'.current_session_id = none ∧
      ∀ other, other ≠ sid →
        dict_lookup store'.sessions other = dict_lookup store.sessions other := by
  refine ⟨{ store with
      sessions := set_session store.sessions sid
        { sess with end_time := some now, status := "completed" },
      current_session_id := none }, ?_, rfl, ?_⟩
  · unfold end_session
    rw [h]
  · intro other ho
    exact lookup_set_session_ne store.sessions sid
      { sess with end_time := some now, status := "completed" } other ho

/-- Claim C10 witness: ending the completed, non-current session "a" in a
store whose current session is "b" clears the current-session marker and
leaves session "b" untouched. -/
theorem end_session_clears_current_session_witness :
    end_session storeTwo "a" 7 = .ok storeTwoEnded ∧
    storeTwoEnded.current_session_id = none ∧
    dict_lookup storeTwoEnded.sessions "b" = dict_lookup storeTwo.sessions "b" := by
  have h := end_session_clears_current_session storeTwo "a" 7 sessionCompleted rfl
  obtain ⟨store', h1, h2, h3⟩ := h
  have hst : store' = storeTwoEnded := by
    have : Except.ok (ε := StoreError) store' = .ok storeTwoEnded := by
      rw [← h1]
      rfl
    exact Except.ok.inj this
  subst hst
  exact ⟨h1, h2, h3 "b" (by decide)⟩

/-! Claim C4. -/

/-- Each loop iteration performs one extraction and consumes one unit of
fuel, so the extraction count grows by at most the remaining fuel. -/
theorem conv_loop_count (extract : Text → HealthRecord) (replies : Nat → Text) :
    ∀ fuel k missing result count,
      (conv_loop extract replies k fuel missing result count).2 ≤ count + fuel := by
  intro fuel
  induction fuel with
  | zero =>
      intro k missing result count
      simp [conv_loop]
  | succ f ih =>
      intro k missing result count
      show (if missing.isEmpty then (result, count)
            else
              let step := merge_step result (extract (replies k))
              conv_loop extract replies (k + 1) f step.1 step.2 (count + 1)).2 ≤
          count + (f + 1)
      by_cases hm : missing.isEmpty
      · rw [if_pos hm]
        omega
      · rw [if_neg hm]
        have h2 := ih (k + 1) (merge_step result (extract (replies k))).1
          (merge_step result (extract (replies k))).2 (count + 1)
        exact le_trans h2 (by omega)

/-- Claim C4: for every extractor behaviour and every sequence of user
replies — including an adversarial sequence that never supplies the required
slots — one run of `process_conversation` (a total Lean function, hence
terminating) invokes the extractor at most `max_questions + 1` times, and at
most 6 times with the default bound of 5; the accumulated record is then
returned for finalization regardless of remaining missing slots. -/
theorem process_conversation_extraction_bound (extract : Text → HealthRecord)
    (replies : Nat → Text) (max_questions : Nat) (initial_text : Text) :
    (process_conversation extract replies max_questions initial_text).2 ≤
      max_questions + 1 ∧
    (process_conversation extract replies 5 initial_text).2 ≤ 6 := by
  constructor
  · have h := conv_loop_count extract replies max_questions 0
      (check_required_fields ((check_required_fields (extract initial_text)).2)).1
      (check_required_fields ((check_required_fields (extract initial_text)).2)).2 1
    exact le_trans h (by omega)
  · have h := conv_loop_count extract replies 5 0
      (check_required_fields ((check_required_fields (extract initial_text)).2)).1
      (check_required_fields ((check_required_fields (extract initial_text)).2)).2 1
    exact le_trans h (by omega)

/-! Claim C8. -/

/-- Claim C8 counterexample: the fallback does not match spotting. The input
text matches the `spotting` group of the keyword table, yet the fallback's
period slot stays empty — only the three flow groups are consulted. -/
theorem fallback_spotting_not_recorded :
    matches_any keywords_spotting
      (lower_text "i noticed some spotting last night".toList) = true ∧
    (extract_period_info_fallback "i noticed some spotting last night".toList
        "api error").period = some emptyPeriod := by
  refine ⟨?_, rfl⟩
  decide

/-- Claim C8 (amended): whenever the text-understanding capability fails,
the fallback extractor never raises (it is a total function) and returns a
well-formed record with confidence 0.5, the error marker, empty symptom and
mood arrays, and the period slot filled by deterministic substring keyword
matching for flow intensity only (light, then medium, then heavy, first
match wins); the spotting keyword group of the table is never consulted. -/
theorem extract_period_info_fallback_spec (text : Text) (e : String) :
    (extract_period_info_fallback text e).confidence = some (1/2 : Rat) ∧
    (extract_period_info_fallback text e).error = some e ∧
    (extract_period_info_fallback text e).unusual_symptoms = some false ∧
    (extract_period_info_fallback text e).symptoms = some [] ∧
    (extract_period_info_fallback text e).mood = some [] ∧
    (extract_period_info_fallback text e).timing = some emptyTiming ∧
    (extract_period_info_fallback text e).raw_text = some (trim_text text) ∧
    (extract_period_info_fallback text e).period =
      (if matches_any keywords_flow_light (lower_text text) then
        some { emptyPeriod with flow := some "light" }
       else if matches_any keywords_flow_medium (lower_text text) then
        some { emptyPeriod with flow := some "medium" }
       else if matches_any keywords_flow_heavy (lower_text text) then
        some { emptyPeriod with flow := some "heavy" }
       else some emptyPeriod) := by
  by_cases h1 : matches_any keywords_flow_light (lower_text text) <;>
    by_cases h2 : matches_any keywords_flow_medium (lower_text text) <;>
      by_cases h3 : matches_any keywords_flow_heavy (lower_text text) <;>
        simp [extract_period_info_fallback, h1, h2, h3]

/-! Claim C9. -/

/-- Claim C9 counterexample: on the empty transcript the fallback extractor
returns confidence 0.5, not 0 — no path of `extract_period_info` produces a
confidence of 0. -/
theorem extract_empty_confidence_half :
    (extract_period_info_fallback [] "the api failed").confidence = some (1/2 : Rat) ∧
    some (1/2 : Rat) ≠ some (0 : Rat) := by
  refine ⟨rfl, ?_⟩
  intro h
  rw [Option.some.injEq] at h
  norm_num at h

/-- Claim C9 (amended): for the empty transcript the fallback extractor
returns a record with empty period, symptoms, mood and timing, confidence
0.5 (not 0) together with an error marker, and unusual-symptoms false; the
completeness check on that record reports exactly the missing-slot list
["period", "date"]. -/
theorem extract_period_info_fallback_empty (e : String) :
    (extract_period_info_fallback [] e).period = some emptyPeriod ∧
    (extract_period_info_fallback [] e).symptoms = some [] ∧
    (extract_period_info_fallback [] e).mood = some [] ∧
    (extract_period_info_fallback [] e).timing = some emptyTiming ∧
    (extract_period_info_fallback [] e).confidence = some (1/2 : Rat) ∧
    (extract_period_info_fallback [] e).error = some e ∧
    (extract_period_info_fallback [] e).unusual_symptoms = some false ∧
    (check_required_fields (extract_period_info_fallback [] e)).1 = ["period", "date"] :=
  ⟨rfl, rfl, rfl, rfl, rfl, rfl, rfl, rfl⟩

end PeriodTracker
